import Mathlib

/-!
Shallow embedding of the banking core in `src/DesafioBanc/main.py`.

Monetary values (Python `float`) are modelled as exact rationals `ℚ`.
The Python operations return `bool` and print a distinct message on each
failure branch; here each branch is reflected in an explicit `Result`
value named after the error taxonomy the branches realise
(`InvalidAmount`, `InsufficientFunds`, `WithdrawalLimitReached`,
`AccountNotOwned`).  Python's in-place mutation of an account object is
modelled by returning the updated account.  The `cliente` back-reference
stored on a `Conta` plays no role in any operation and is omitted.
-/

/-- Outcome of an operation; one constructor per source branch
(`ok` for `return True`, the others for each distinct error branch). -/
inductive Result where
  | ok
  | invalidAmount
  | insufficientFunds
  | withdrawalLimitReached
  | accountNotOwned
deriving DecidableEq, Repr

/-- The `Transacao` hierarchy: concrete subclasses `Deposito` and `Saque`,
each holding a `valor`. -/
inductive Transacao where
  | deposito (valor : ℚ)
  | saque (valor : ℚ)
deriving DecidableEq, Repr

/-- `Historico`: the `_transacoes` list of one account. -/
structure Historico where
  transacoes : List Transacao
deriving DecidableEq, Repr

/-- `Historico.adicionar_transacao`: appends a transaction at the end. -/
def Historico.adicionar_transacao (h : Historico) (t : Transacao) : Historico :=
  ⟨h.transacoes ++ [t]⟩

/-- Base class `Conta`: balance, number, agency and owned history. -/
structure Conta where
  saldo : ℚ
  numero : Nat
  agencia : String
  historico : Historico
deriving DecidableEq, Repr

/-- `Conta.__init__` via the factory `Conta.nova_conta`:
`saldo = 0.0`, `agencia = "0001"`, empty history. -/
def Conta.nova_conta (numero : Nat) : Conta :=
  { saldo := 0, numero := numero, agencia := "0001", historico := ⟨[]⟩ }

/-- `Deposito.registrar` / `Saque.registrar`: mutate the balance by the
signed amount and append the transaction to the history.  No validation
happens here (it is the caller's responsibility, per the source comments). -/
def Transacao.registrar (t : Transacao) (conta : Conta) : Conta :=
  match t with
  | .deposito v =>
      { conta with saldo := conta.saldo + v
                   historico := conta.historico.adicionar_transacao (.deposito v) }
  | .saque v =>
      { conta with saldo := conta.saldo - v
                   historico := conta.historico.adicionar_transacao (.saque v) }

/-- `Conta.depositar`: rejects `valor <= 0`, otherwise constructs a
`Deposito` and registers it. -/
def Conta.depositar (valor : ℚ) (c : Conta) : Result × Conta :=
  if valor ≤ 0 then (.invalidAmount, c)
  else (.ok, Transacao.registrar (.deposito valor) c)

/-- `Conta.sacar`: rejects `valor <= 0`, then `valor > saldo`, otherwise
constructs a `Saque` and registers it. -/
def Conta.sacar (valor : ℚ) (c : Conta) : Result × Conta :=
  if valor ≤ 0 then (.invalidAmount, c)
  else if c.saldo < valor then (.insufficientFunds, c)
  else (.ok, Transacao.registrar (.saque valor) c)

/-- `ContaCorrente`: a `Conta` plus overdraft limit (`limite`), maximum
number of withdrawals (`limite_saques`) and the withdrawal counter
(`_numero_saques_realizados`). -/
structure ContaCorrente extends Conta where
  limite : ℚ
  limite_saques : Nat
  numero_saques_realizados : Nat
deriving DecidableEq, Repr

/-- `ContaCorrente.__init__` with the default `limite = 500.0` and
`limite_saques = 3`, as used by the factory `nova_conta`. -/
def ContaCorrente.nova_conta (numero : Nat) : ContaCorrente :=
  { Conta.nova_conta numero with
      limite := 500, limite_saques := 3, numero_saques_realizados := 0 }

/-- `registrar` called on a `ContaCorrente` object: it only touches the
base-class fields (`saldo`, `historico`). -/
def Transacao.registrarCC (t : Transacao) (cc : ContaCorrente) : ContaCorrente :=
  { cc with toConta := t.registrar cc.toConta }

/-- `depositar` on a `ContaCorrente` is inherited unchanged from `Conta`. -/
def ContaCorrente.depositar (valor : ℚ) (cc : ContaCorrente) : Result × ContaCorrente :=
  if valor ≤ 0 then (.invalidAmount, cc)
  else (.ok, Transacao.registrarCC (.deposito valor) cc)

/-- `ContaCorrente.sacar`: rejects `valor <= 0`, then an exhausted
withdrawal counter, then `valor > saldo + limite`; otherwise registers a
`Saque` and increments the counter. -/
def ContaCorrente.sacar (valor : ℚ) (cc : ContaCorrente) : Result × ContaCorrente :=
  if valor ≤ 0 then (.invalidAmount, cc)
  else if cc.limite_saques ≤ cc.numero_saques_realizados then (.withdrawalLimitReached, cc)
  else if cc.saldo + cc.limite < valor then (.insufficientFunds, cc)
  else
    let registrada := Transacao.registrarCC (.saque valor) cc
    (.ok, { registrada with
              numero_saques_realizados := cc.numero_saques_realizados + 1 })

/-- `str(transacao)`: the fixed one-line description of each variant.
Python's `:.2f` fixed-point rendering is modelled exactly on `ℚ`
(round to the nearest cent, half up, then print two decimals). -/
def format2f (q : ℚ) : String :=
  let r : ℚ := q * 100 + 1 / 2
  let cents : Int := Int.fdiv r.num r.den
  let sign := if cents < 0 then "-" else ""
  let n := cents.natAbs
  sign ++ toString (n / 100) ++ "." ++
    (if n % 100 < 10 then "0" else "") ++ toString (n % 100)

/-- `Deposito.__str__` and `Saque.__str__`. -/
def Transacao.str : Transacao → String
  | .deposito v => "[+] Depósito: R$ " ++ format2f v
  | .saque v => "[-] Saque:    R$ " ++ format2f v

/-- `Historico.gerar_relatorio`: the "no transactions" line when the
history is empty, otherwise a header followed by one line per
transaction, accumulated left to right as in the source loop. -/
def Historico.gerar_relatorio (h : Historico) : String :=
  if h.transacoes = [] then "Nenhuma transação realizada."
  else h.transacoes.foldl (fun relatorio t => relatorio ++ (Transacao.str t ++ "\n"))
    "--- Extrato de Transações ---\n"

/-- `Cliente`, instantiated at the base account type: its `contas`
collection.  (`endereco` plays no role in any operation and is omitted.) -/
structure Cliente where
  contas : List Conta
deriving DecidableEq, Repr

/-- `Cliente.realizar_transacao`: rejects an account not in the client's
collection (Python `conta not in self.contas`), otherwise delegates
directly to `transacao.registrar(conta)` with no further validation. -/
def Cliente.realizar_transacao (cl : Cliente) (conta : Conta) (t : Transacao) :
    Result × Conta :=
  if conta ∈ cl.contas then (.ok, t.registrar conta)
  else (.accountNotOwned, conta)

/-- `Cliente` instantiated at `ContaCorrente` (Python's `contas` list is
heterogeneous; the embedding is monomorphic per account type). -/
structure ClienteCC where
  contas : List ContaCorrente
deriving DecidableEq, Repr

/-- `Cliente.realizar_transacao` on a `ContaCorrente`: same ownership
check, then direct delegation to `registrar` on the checking account. -/
def ClienteCC.realizar_transacao (cl : ClienteCC) (cc : ContaCorrente) (t : Transacao) :
    Result × ContaCorrente :=
  if cc ∈ cl.contas then (.ok, t.registrarCC cc)
  else (.accountNotOwned, cc)

/-- A call through the validated public interface of an account:
either `depositar` or `sacar` with some amount. -/
inductive Op where
  | dep (valor : ℚ)
  | saq (valor : ℚ)
deriving DecidableEq, Repr

/-- Run one public call on a base account, keeping the resulting state. -/
def Conta.runOp (c : Conta) (op : Op) : Conta :=
  match op with
  | .dep v => (Conta.depositar v c).2
  | .saq v => (Conta.sacar v c).2

/-- Run a sequence of public calls on a base account. -/
def Conta.runOps (ops : List Op) (c : Conta) : Conta :=
  ops.foldl Conta.runOp c

/-- Run one public call on a checking account, keeping the resulting state. -/
def ContaCorrente.runOp (cc : ContaCorrente) (op : Op) : ContaCorrente :=
  match op with
  | .dep v => (ContaCorrente.depositar v cc).2
  | .saq v => (ContaCorrente.sacar v cc).2

/-- Run a sequence of public calls on a checking account. -/
def ContaCorrente.runOps (ops : List Op) (cc : ContaCorrente) : ContaCorrente :=
  ops.foldl ContaCorrente.runOp cc

/-- The signed amount of a transaction: deposits positive, withdrawals
negative. -/
def Transacao.signedValor : Transacao → ℚ
  | .deposito v => v
  | .saque v => -v

/-- Sum of the signed amounts of a transaction list. -/
def signedSum (ts : List Transacao) : ℚ :=
  (ts.map Transacao.signedValor).sum

/-! ### Helper lemmas -/

theorem signedSum_append (ts : List Transacao) (t : Transacao) :
    signedSum (ts ++ [t]) = signedSum ts + t.signedValor := by
  simp [signedSum]

/-- The balance invariant of one base-account state. -/
def Conta.balOk (c : Conta) : Prop :=
  c.saldo = signedSum c.historico.transacoes

theorem registrar_balOk (t : Transacao) (c : Conta) (h : c.balOk) :
    (t.registrar c).balOk := by
  cases t with
  | deposito v =>
      simp only [Conta.balOk, Transacao.registrar, Historico.adicionar_transacao,
        signedSum_append, Transacao.signedValor] at *
      rw [h]
  | saque v =>
      simp only [Conta.balOk, Transacao.registrar, Historico.adicionar_transacao,
        signedSum_append, Transacao.signedValor] at *
      rw [h]; ring

theorem runOp_balOk (c : Conta) (op : Op) (h : c.balOk) : (c.runOp op).balOk := by
  cases op with
  | dep v =>
      by_cases hv : v ≤ 0
      · simpa [Conta.runOp, Conta.depositar, hv] using h
      · simpa [Conta.runOp, Conta.depositar, hv] using registrar_balOk (.deposito v) c h
  | saq v =>
      by_cases hv : v ≤ 0
      · simpa [Conta.runOp, Conta.sacar, hv] using h
      · by_cases hs : c.saldo < v
        · simpa [Conta.runOp, Conta.sacar, hv, hs] using h
        · simpa [Conta.runOp, Conta.sacar, hv, hs] using registrar_balOk (.saque v) c h

theorem runOps_balOk (ops : List Op) (c : Conta) (h : c.balOk) :
    (Conta.runOps ops c).balOk := by
  induction ops generalizing c with
  | nil => simpa [Conta.runOps] using h
  | cons op ops ih =>
      simpa [Conta.runOps, List.foldl_cons] using ih (c.runOp op) (runOp_balOk c op h)

/-- The balance invariant of one checking-account state. -/
def ContaCorrente.balOk (cc : ContaCorrente) : Prop :=
  cc.saldo = signedSum cc.historico.transacoes

theorem registrarCC_balOk (t : Transacao) (cc : ContaCorrente) (h : cc.balOk) :
    (t.registrarCC cc).balOk := by
  have := registrar_balOk t cc.toConta h
  simpa [Transacao.registrarCC, ContaCorrente.balOk, Conta.balOk] using this

theorem runOpCC_balOk (cc : ContaCorrente) (op : Op) (h : cc.balOk) :
    (cc.runOp op).balOk := by
  cases op with
  | dep v =>
      by_cases hv : v ≤ 0
      · simpa [ContaCorrente.runOp, ContaCorrente.depositar, hv] using h
      · simpa [ContaCorrente.runOp, ContaCorrente.depositar, hv] using
          registrarCC_balOk (.deposito v) cc h
  | saq v =>
      by_cases hv : v ≤ 0
      · simpa [ContaCorrente.runOp, ContaCorrente.sacar, hv] using h
      · by_cases hn : cc.limite_saques ≤ cc.numero_saques_realizados
        · simpa [ContaCorrente.runOp, ContaCorrente.sacar, hv, hn] using h
        · by_cases hs : cc.saldo + cc.limite < v
          · simpa [ContaCorrente.runOp, ContaCorrente.sacar, hv, hn, hs] using h
          · have := registrarCC_balOk (.saque v) cc h
            simpa [ContaCorrente.runOp, ContaCorrente.sacar, hv, hn, hs,
              ContaCorrente.balOk, Transacao.registrarCC] using this

theorem runOpsCC_balOk (ops : List Op) (cc : ContaCorrente) (h : cc.balOk) :
    (ContaCorrente.runOps ops cc).balOk := by
  induction ops generalizing cc with
  | nil => simpa [ContaCorrente.runOps] using h
  | cons op ops ih =>
      simpa [ContaCorrente.runOps, List.foldl_cons] using ih (cc.runOp op) (runOpCC_balOk cc op h)

theorem runOp_nonneg (c : Conta) (op : Op) (h : 0 ≤ c.saldo) : 0 ≤ (c.runOp op).saldo := by
  cases op with
  | dep v =>
      by_cases hv : v ≤ 0
      · simpa [Conta.runOp, Conta.depositar, hv] using h
      · push_neg at hv
        simp only [Conta.runOp, Conta.depositar, if_neg (not_le.mpr hv),
          Transacao.registrar]
        linarith
  | saq v =>
      by_cases hv : v ≤ 0
      · simpa [Conta.runOp, Conta.sacar, hv] using h
      · by_cases hs : c.saldo < v
        · simpa [Conta.runOp, Conta.sacar, hv, hs] using h
        · push_neg at hs
          simp only [Conta.runOp, Conta.sacar, if_neg hv, if_neg (not_lt.mpr hs),
            Transacao.registrar]
          linarith

theorem runOps_nonneg (ops : List Op) (c : Conta) (h : 0 ≤ c.saldo) :
    0 ≤ (Conta.runOps ops c).saldo := by
  induction ops generalizing c with
  | nil => simpa [Conta.runOps] using h
  | cons op ops ih =>
      simpa [Conta.runOps, List.foldl_cons] using ih (c.runOp op) (runOp_nonneg c op h)

theorem foldl_append_shift (l : List String) : ∀ (s t : String),
    l.foldl (· ++ ·) (s ++ t) = s ++ l.foldl (· ++ ·) t := by
  induction l with
  | nil => intro s t; rfl
  | cons a l ih =>
      intro s t
      simp only [List.foldl_cons, String.append_assoc, ih]

theorem join_cons (a : String) (l : List String) :
    String.join (a :: l) = a ++ String.join l := by
  show List.foldl (· ++ ·) ("" ++ a) l = a ++ List.foldl (· ++ ·) "" l
  rw [show ("" ++ a : String) = a ++ "" from by
    rw [String.append_empty]
    exact (String.append_empty a ▸ rfl : ("" ++ a : String) = a)]
  exact foldl_append_shift l a ""

theorem foldl_append_join {α : Type} (f : α → String) (ts : List α) : ∀ (s : String),
    ts.foldl (fun acc t => acc ++ f t) s = s ++ String.join (ts.map f) := by
  induction ts with
  | nil => intro s; simp [String.join, String.append_empty]
  | cons a ts ih =>
      intro s
      simp only [List.foldl_cons, List.map_cons, join_cons, ih (s ++ f a),
        String.append_assoc]

/-! ### Claim theorems -/

/-- C1. Balance invariant: starting from a freshly constructed base
account or checking account, after any sequence of public `depositar` /
`sacar` calls the balance equals the sum of the signed amounts of the
transactions in the history (deposits positive, withdrawals negative);
the balance is only ever changed by `registrar`, which simultaneously
appends the transaction. -/
theorem balance_invariant (ops : List Op) (n : Nat) :
    (Conta.runOps ops (Conta.nova_conta n)).saldo
      = signedSum (Conta.runOps ops (Conta.nova_conta n)).historico.transacoes
    ∧ (ContaCorrente.runOps ops (ContaCorrente.nova_conta n)).saldo
      = signedSum (ContaCorrente.runOps ops (ContaCorrente.nova_conta n)).historico.transacoes := by
  constructor
  · exact runOps_balOk ops (Conta.nova_conta n)
      (by simp [Conta.balOk, Conta.nova_conta, signedSum])
  · exact runOpsCC_balOk ops (ContaCorrente.nova_conta n)
      (by simp [ContaCorrente.balOk, ContaCorrente.nova_conta, Conta.nova_conta, signedSum])

/-- C10. A fresh base account starts at balance `0` and every sequence of
public `depositar` / `sacar` calls keeps the balance nonnegative. -/
theorem base_saldo_nonneg (ops : List Op) (n : Nat) :
    0 ≤ (Conta.runOps ops (Conta.nova_conta n)).saldo :=
  runOps_nonneg ops (Conta.nova_conta n) (by simp [Conta.nova_conta])

/-- C5. On every reachable base account (any sequence of public calls on
a fresh account), `sacar valor` with `valor` exceeding the balance fails
with `insufficientFunds` and leaves the account (balance and history)
unchanged. -/
theorem base_insufficiency (ops : List Op) (n : Nat) (v : ℚ)
    (h : (Conta.runOps ops (Conta.nova_conta n)).saldo < v) :
    Conta.sacar v (Conta.runOps ops (Conta.nova_conta n))
      = (.insufficientFunds, Conta.runOps ops (Conta.nova_conta n)) := by
  have h0 : 0 ≤ (Conta.runOps ops (Conta.nova_conta n)).saldo :=
    runOps_nonneg ops (Conta.nova_conta n) (by simp [Conta.nova_conta])
  have hv : ¬ v ≤ 0 := by linarith
  simp [Conta.sacar, hv, h]

/-- Witness for C5 at the fresh account `nova_conta 1` and `valor = 5`. -/
theorem base_insufficiency_witness :
    (Conta.runOps [] (Conta.nova_conta 1)).saldo < 5 ∧
    Conta.sacar 5 (Conta.runOps [] (Conta.nova_conta 1))
      = (.insufficientFunds, Conta.runOps [] (Conta.nova_conta 1)) :=
  ⟨by decide, base_insufficiency [] 1 5 (by decide)⟩

/-- C2. Atomicity of rejection: a `depositar` or `sacar` call (base or
checking account) that does not return `ok` leaves the whole account
state unchanged (balance, history and withdrawal counter), while a call
that returns `ok` grows the history by exactly one entry. -/
theorem rejection_atomicity (v : ℚ) (c : Conta) (cc : ContaCorrente) :
    ((Conta.depositar v c).1 ≠ .ok → (Conta.depositar v c).2 = c) ∧
    ((Conta.depositar v c).1 = .ok →
      (Conta.depositar v c).2.historico.transacoes.length
        = c.historico.transacoes.length + 1) ∧
    ((Conta.sacar v c).1 ≠ .ok → (Conta.sacar v c).2 = c) ∧
    ((Conta.sacar v c).1 = .ok →
      (Conta.sacar v c).2.historico.transacoes.length
        = c.historico.transacoes.length + 1) ∧
    ((ContaCorrente.depositar v cc).1 ≠ .ok → (ContaCorrente.depositar v cc).2 = cc) ∧
    ((ContaCorrente.depositar v cc).1 = .ok →
      (ContaCorrente.depositar v cc).2.historico.transacoes.length
        = cc.historico.transacoes.length + 1) ∧
    ((ContaCorrente.sacar v cc).1 ≠ .ok → (ContaCorrente.sacar v cc).2 = cc) ∧
    ((ContaCorrente.sacar v cc).1 = .ok →
      (ContaCorrente.sacar v cc).2.historico.transacoes.length
        = cc.historico.transacoes.length + 1) := by
  refine ⟨?_, ?_, ?_, ?_, ?_, ?_, ?_, ?_⟩
  · by_cases hv : v ≤ 0 <;> simp [Conta.depositar, hv]
  · by_cases hv : v ≤ 0 <;>
      simp [Conta.depositar, hv, Transacao.registrar, Historico.adicionar_transacao]
  · by_cases hv : v ≤ 0
    · simp [Conta.sacar, hv]
    · by_cases hs : c.saldo < v <;> simp [Conta.sacar, hv, hs]
  · by_cases hv : v ≤ 0
    · simp [Conta.sacar, hv]
    · by_cases hs : c.saldo < v <;>
        simp [Conta.sacar, hv, hs, Transacao.registrar, Historico.adicionar_transacao]
  · by_cases hv : v ≤ 0 <;> simp [ContaCorrente.depositar, hv]
  · by_cases hv : v ≤ 0 <;>
      simp [ContaCorrente.depositar, hv, Transacao.registrarCC, Transacao.registrar,
        Historico.adicionar_transacao]
  · by_cases hv : v ≤ 0
    · simp [ContaCorrente.sacar, hv]
    · by_cases hn : cc.limite_saques ≤ cc.numero_saques_realizados
      · simp [ContaCorrente.sacar, hv, hn]
      · by_cases hs : cc.saldo + cc.limite < v <;> simp [ContaCorrente.sacar, hv, hn, hs]
  · by_cases hv : v ≤ 0
    · simp [ContaCorrente.sacar, hv]
    · by_cases hn : cc.limite_saques ≤ cc.numero_saques_realizados
      · simp [ContaCorrente.sacar, hv, hn]
      · by_cases hs : cc.saldo + cc.limite < v <;>
          simp [ContaCorrente.sacar, hv, hn, hs, Transacao.registrarCC,
            Transacao.registrar, Historico.adicionar_transacao]

/-- Witness for C2: the rejected call `depositar (-1)` on a fresh account
returns a non-`ok` result and leaves the account unchanged. -/
theorem rejection_atomicity_witness :
    (Conta.depositar (-1) (Conta.nova_conta 1)).1 ≠ .ok ∧
    (Conta.depositar (-1) (Conta.nova_conta 1)).2 = Conta.nova_conta 1 :=
  ⟨by decide, (rejection_atomicity (-1) (Conta.nova_conta 1) (ContaCorrente.nova_conta 1)).1
    (by decide)⟩

/-- C3. Withdrawal count ceiling and error precedence: on a checking
account whose counter has reached `limite_saques`, `sacar` with any
positive amount fails with `withdrawalLimitReached` and changes nothing —
regardless of the balance or overdraft limit, because the counter check
precedes the funds check. -/
theorem limit_precedence (cc : ContaCorrente) (v : ℚ) (hv : 0 < v)
    (hn : cc.limite_saques ≤ cc.numero_saques_realizados) :
    ContaCorrente.sacar v cc = (.withdrawalLimitReached, cc) := by
  simp [ContaCorrente.sacar, not_le.mpr hv, hn]

/-- Witness for C3: an account with ample funds (`saldo = 1000`,
overdraft `500`) but an exhausted counter still rejects a withdrawal of
`100` with `withdrawalLimitReached`. -/
theorem limit_precedence_witness :
    (0 : ℚ) < 100 ∧
    ({ saldo := 1000, numero := 1, agencia := "0001", historico := ⟨[]⟩,
       limite := 500, limite_saques := 3,
       numero_saques_realizados := 3 } : ContaCorrente).limite_saques ≤
      ({ saldo := 1000, numero := 1, agencia := "0001", historico := ⟨[]⟩,
         limite := 500, limite_saques := 3,
         numero_saques_realizados := 3 } : ContaCorrente).numero_saques_realizados ∧
    ContaCorrente.sacar 100
      { saldo := 1000, numero := 1, agencia := "0001", historico := ⟨[]⟩,
        limite := 500, limite_saques := 3, numero_saques_realizados := 3 }
      = (.withdrawalLimitReached,
         { saldo := 1000, numero := 1, agencia := "0001", historico := ⟨[]⟩,
           limite := 500, limite_saques := 3, numero_saques_realizados := 3 }) :=
  ⟨by decide, by decide,
    limit_precedence
      { saldo := 1000, numero := 1, agencia := "0001", historico := ⟨[]⟩,
        limite := 500, limite_saques := 3, numero_saques_realizados := 3 }
      100 (by decide) (by decide)⟩

/-- C4 counterexample. The overdraft claim as stated fails on the code at
two explicit inputs: (a) a checking account with `saldo = 0`, overdraft
`500` and an exhausted withdrawal counter satisfies
`saldo < 100 ≤ saldo + limite`, yet `sacar 100` does not succeed (the
counter check fires first); (b) a checking account with `saldo = -300`
and a fresh counter satisfies `saldo < -100 ≤ saldo + limite`, yet
`sacar (-100)` does not succeed (the amount-positivity check fires
first). -/
theorem overdraft_claim_counterexample :
    (({ saldo := 0, numero := 1, agencia := "0001", historico := ⟨[]⟩,
        limite := 500, limite_saques := 3,
        numero_saques_realizados := 3 } : ContaCorrente).saldo < 100 ∧
     (100 : ℚ) ≤
       ({ saldo := 0, numero := 1, agencia := "0001", historico := ⟨[]⟩,
          limite := 500, limite_saques := 3,
          numero_saques_realizados := 3 } : ContaCorrente).saldo +
       ({ saldo := 0, numero := 1, agencia := "0001", historico := ⟨[]⟩,
          limite := 500, limite_saques := 3,
          numero_saques_realizados := 3 } : ContaCorrente).limite ∧
     (ContaCorrente.sacar 100
       { saldo := 0, numero := 1, agencia := "0001", historico := ⟨[]⟩,
         limite := 500, limite_saques := 3,
         numero_saques_realizados := 3 }).1 ≠ .ok) ∧
    (({ saldo := -300, numero := 1, agencia := "0001", historico := ⟨[]⟩,
        limite := 500, limite_saques := 3,
        numero_saques_realizados := 0 } : ContaCorrente).saldo < -100 ∧
     (-100 : ℚ) ≤
       ({ saldo := -300, numero := 1, agencia := "0001", historico := ⟨[]⟩,
          limite := 500, limite_saques := 3,
          numero_saques_realizados := 0 } : ContaCorrente).saldo +
       ({ saldo := -300, numero := 1, agencia := "0001", historico := ⟨[]⟩,
          limite := 500, limite_saques := 3,
          numero_saques_realizados := 0 } : ContaCorrente).limite ∧
     (ContaCorrente.sacar (-100)
       { saldo := -300, numero := 1, agencia := "0001", historico := ⟨[]⟩,
         limite := 500, limite_saques := 3,
         numero_saques_realizados := 0 }).1 ≠ .ok) := by
  refine ⟨⟨by norm_num, by norm_num, ?_⟩, ⟨by norm_num, by norm_num, ?_⟩⟩
  · norm_num [ContaCorrente.sacar]
    decide
  · norm_num [ContaCorrente.sacar]
    decide

/-- C4 amended. Overdraft enforcement for a checking account whose
amount is positive and whose withdrawal counter is below the limit:
`sacar valor` succeeds whenever `saldo < valor ≤ saldo + limite` and the
resulting balance is negative but at least `-limite`; and it fails with
`insufficientFunds`, leaving the account unchanged, whenever
`valor > saldo + limite`. -/
theorem overdraft_enforcement (cc : ContaCorrente) (v : ℚ) (hv : 0 < v)
    (hn : cc.numero_saques_realizados < cc.limite_saques) :
    ((cc.saldo < v → v ≤ cc.saldo + cc.limite →
        (ContaCorrente.sacar v cc).1 = .ok ∧
        (ContaCorrente.sacar v cc).2.saldo < 0 ∧
        -cc.limite ≤ (ContaCorrente.sacar v cc).2.saldo) ∧
     (cc.saldo + cc.limite < v →
        ContaCorrente.sacar v cc = (.insufficientFunds, cc))) := by
  constructor
  · intro hlt hle
    have hs : ¬ cc.saldo + cc.limite < v := not_lt.mpr hle
    refine ⟨?_, ?_, ?_⟩ <;>
      simp only [ContaCorrente.sacar, if_neg (not_le.mpr hv), if_neg (not_le.mpr hn),
        if_neg hs, Transacao.registrarCC, Transacao.registrar]
    · linarith
    · linarith
  · intro hs
    simp [ContaCorrente.sacar, not_le.mpr hv, not_le.mpr hn, hs]

/-- Witness for C4 at the fresh checking account (`saldo = 0`, overdraft
`500`, counter `0 < 3`) and `valor = 500`: the withdrawal succeeds and
the balance lands at a negative value not below `-500`. -/
theorem overdraft_enforcement_witness :
    (0 : ℚ) < 500 ∧
    (ContaCorrente.nova_conta 1).numero_saques_realizados <
      (ContaCorrente.nova_conta 1).limite_saques ∧
    (ContaCorrente.sacar 500 (ContaCorrente.nova_conta 1)).1 = .ok ∧
    (ContaCorrente.sacar 500 (ContaCorrente.nova_conta 1)).2.saldo < 0 ∧
    -(ContaCorrente.nova_conta 1).limite ≤
      (ContaCorrente.sacar 500 (ContaCorrente.nova_conta 1)).2.saldo :=
  ⟨by norm_num, by decide,
    (overdraft_enforcement (ContaCorrente.nova_conta 1) 500 (by norm_num)
        (by decide)).1
      (by norm_num [ContaCorrente.nova_conta, Conta.nova_conta])
      (by norm_num [ContaCorrente.nova_conta, Conta.nova_conta])⟩

/-- C6. Deposit contract, on base and checking accounts alike: a
non-positive amount fails with `invalidAmount` leaving the account
untouched; a positive amount succeeds, adds the amount to the balance
and appends exactly the `deposito` transaction to the history (and on a
checking account leaves the withdrawal counter unchanged).  There is no
other failure branch. -/
theorem deposit_contract (v : ℚ) (c : Conta) (cc : ContaCorrente) :
    (v ≤ 0 →
      Conta.depositar v c = (.invalidAmount, c) ∧
      ContaCorrente.depositar v cc = (.invalidAmount, cc)) ∧
    (0 < v →
      (Conta.depositar v c).1 = .ok ∧
      (Conta.depositar v c).2.saldo = c.saldo + v ∧
      (Conta.depositar v c).2.historico.transacoes
        = c.historico.transacoes ++ [.deposito v] ∧
      (ContaCorrente.depositar v cc).1 = .ok ∧
      (ContaCorrente.depositar v cc).2.saldo = cc.saldo + v ∧
      (ContaCorrente.depositar v cc).2.historico.transacoes
        = cc.historico.transacoes ++ [.deposito v] ∧
      (ContaCorrente.depositar v cc).2.numero_saques_realizados
        = cc.numero_saques_realizados) := by
  constructor
  · intro hv
    simp [Conta.depositar, ContaCorrente.depositar, hv]
  · intro hv
    simp [Conta.depositar, ContaCorrente.depositar, not_le.mpr hv,
      Transacao.registrarCC, Transacao.registrar, Historico.adicionar_transacao]

/-- Witness for C6 at `v = 100` on fresh accounts: the deposit succeeds,
raises the balance by `100`, appends one history entry and does not touch
the withdrawal counter. -/
theorem deposit_contract_witness :
    (0 : ℚ) < 100 ∧
    (Conta.depositar 100 (Conta.nova_conta 1)).1 = .ok ∧
    (Conta.depositar 100 (Conta.nova_conta 1)).2.saldo
      = (Conta.nova_conta 1).saldo + 100 ∧
    (Conta.depositar 100 (Conta.nova_conta 1)).2.historico.transacoes
      = (Conta.nova_conta 1).historico.transacoes ++ [.deposito 100] ∧
    (ContaCorrente.depositar 100 (ContaCorrente.nova_conta 2)).1 = .ok ∧
    (ContaCorrente.depositar 100 (ContaCorrente.nova_conta 2)).2.saldo
      = (ContaCorrente.nova_conta 2).saldo + 100 ∧
    (ContaCorrente.depositar 100 (ContaCorrente.nova_conta 2)).2.historico.transacoes
      = (ContaCorrente.nova_conta 2).historico.transacoes ++ [.deposito 100] ∧
    (ContaCorrente.depositar 100 (ContaCorrente.nova_conta 2)).2.numero_saques_realizados
      = (ContaCorrente.nova_conta 2).numero_saques_realizados :=
  ⟨by norm_num,
    (deposit_contract 100 (Conta.nova_conta 1) (ContaCorrente.nova_conta 2)).2
      (by norm_num)⟩

/-- C7. Report shape and idempotence: `gerar_relatorio` is a pure
function of the history; on an empty history it is exactly the single
"no transactions" line (no header), on a non-empty history it is the
header followed by one formatted line per transaction in insertion
order, and two calls on the same history give the same string. -/
theorem relatorio_shape :
    (Historico.gerar_relatorio ⟨[]⟩ = "Nenhuma transação realizada.") ∧
    (∀ (h : Historico), h.transacoes ≠ [] →
      h.gerar_relatorio =
        "--- Extrato de Transações ---\n" ++
          String.join (h.transacoes.map (fun t => t.str ++ "\n"))) ∧
    (∀ (h : Historico), h.gerar_relatorio = h.gerar_relatorio) := by
  refine ⟨rfl, ?_, fun _ => rfl⟩
  intro h hne
  simp only [Historico.gerar_relatorio, if_neg hne]
  exact foldl_append_join (fun t => t.str ++ "\n") h.transacoes
    "--- Extrato de Transações ---\n"

/-- Witness for C7 on the one-deposit history: the report is the header
plus that deposit's line. -/
theorem relatorio_shape_witness :
    (⟨[.deposito 100]⟩ : Historico).transacoes ≠ [] ∧
    (⟨[.deposito 100]⟩ : Historico).gerar_relatorio =
      "--- Extrato de Transações ---\n" ++
        String.join (((⟨[.deposito 100]⟩ : Historico)).transacoes.map
          (fun t => t.str ++ "\n")) :=
  ⟨by decide, relatorio_shape.2.1 ⟨[.deposito 100]⟩ (by decide)⟩

/-- C8. Ownership gate: `realizar_transacao` on an account outside the
client's `contas` collection fails with `accountNotOwned` and returns the
account unchanged; on an owned account it delegates directly to
`registrar`, with none of the `depositar`/`sacar` validation (the
transaction is applied whatever its amount).  Stated for both account
types the collection can hold. -/
theorem ownership_gate (cl : Cliente) (conta : Conta) (t : Transacao)
    (clcc : ClienteCC) (cc : ContaCorrente) :
    (conta ∉ cl.contas →
      Cliente.realizar_transacao cl conta t = (.accountNotOwned, conta)) ∧
    (conta ∈ cl.contas →
      Cliente.realizar_transacao cl conta t = (.ok, t.registrar conta)) ∧
    (cc ∉ clcc.contas →
      ClienteCC.realizar_transacao clcc cc t = (.accountNotOwned, cc)) ∧
    (cc ∈ clcc.contas →
      ClienteCC.realizar_transacao clcc cc t = (.ok, t.registrarCC cc)) := by
  refine ⟨?_, ?_, ?_, ?_⟩ <;> intro hm <;>
    simp [Cliente.realizar_transacao, ClienteCC.realizar_transacao, hm]

/-- Witness for C8: a client owning only account number 1 rejects a
withdrawal on foreign account number 2 without touching it, and applies
a transaction on the owned account via `registrar` directly. -/
theorem ownership_gate_witness :
    (Conta.nova_conta 2 ∉ (⟨[Conta.nova_conta 1]⟩ : Cliente).contas ∧
      Cliente.realizar_transacao ⟨[Conta.nova_conta 1]⟩ (Conta.nova_conta 2)
        (.saque 50) = (.accountNotOwned, Conta.nova_conta 2)) ∧
    (Conta.nova_conta 1 ∈ (⟨[Conta.nova_conta 1]⟩ : Cliente).contas ∧
      Cliente.realizar_transacao ⟨[Conta.nova_conta 1]⟩ (Conta.nova_conta 1)
        (.saque 50) = (.ok, Transacao.registrar (.saque 50) (Conta.nova_conta 1))) :=
  ⟨⟨by decide,
      (ownership_gate ⟨[Conta.nova_conta 1]⟩ (Conta.nova_conta 2) (.saque 50)
        ⟨[]⟩ (ContaCorrente.nova_conta 1)).1 (by decide)⟩,
   ⟨by decide,
      (ownership_gate ⟨[Conta.nova_conta 1]⟩ (Conta.nova_conta 1) (.saque 50)
        ⟨[]⟩ (ContaCorrente.nova_conta 1)).2.1 (by decide)⟩⟩

/-- C9. The bypass path does not count against the withdrawal limit: a
`saque` applied to an owned checking account through
`realizar_transacao` returns `ok`, lowers the balance and appends to the
history, but leaves `numero_saques_realizados` unchanged — the counter
is incremented only inside `ContaCorrente.sacar`. -/
theorem bypass_skips_counter (cl : ClienteCC) (cc : ContaCorrente) (v : ℚ)
    (hv : 0 < v) (hm : cc ∈ cl.contas) :
    (ClienteCC.realizar_transacao cl cc (.saque v)).1 = .ok ∧
    (ClienteCC.realizar_transacao cl cc (.saque v)).2.saldo < cc.saldo ∧
    (ClienteCC.realizar_transacao cl cc (.saque v)).2.historico.transacoes
      = cc.historico.transacoes ++ [.saque v] ∧
    (ClienteCC.realizar_transacao cl cc (.saque v)).2.numero_saques_realizados
      = cc.numero_saques_realizados := by
  refine ⟨?_, ?_, ?_, ?_⟩
  · simp [ClienteCC.realizar_transacao, if_pos hm]
  · simp only [ClienteCC.realizar_transacao, if_pos hm, Transacao.registrarCC,
      Transacao.registrar]
    linarith
  · simp [ClienteCC.realizar_transacao, if_pos hm, Transacao.registrarCC,
      Transacao.registrar, Historico.adicionar_transacao]
  · simp [ClienteCC.realizar_transacao, if_pos hm, Transacao.registrarCC,
      Transacao.registrar]

/-- Witness for C9: a client owning the fresh checking account number 1
applies `saque 50` through `realizar_transacao`; the counter stays at its
old value while balance and history change. -/
theorem bypass_skips_counter_witness :
    (0 : ℚ) < 50 ∧
    ContaCorrente.nova_conta 1 ∈ (⟨[ContaCorrente.nova_conta 1]⟩ : ClienteCC).contas ∧
    (ClienteCC.realizar_transacao ⟨[ContaCorrente.nova_conta 1]⟩
        (ContaCorrente.nova_conta 1) (.saque 50)).1 = .ok ∧
    (ClienteCC.realizar_transacao ⟨[ContaCorrente.nova_conta 1]⟩
        (ContaCorrente.nova_conta 1) (.saque 50)).2.saldo
      < (ContaCorrente.nova_conta 1).saldo ∧
    (ClienteCC.realizar_transacao ⟨[ContaCorrente.nova_conta 1]⟩
        (ContaCorrente.nova_conta 1) (.saque 50)).2.historico.transacoes
      = (ContaCorrente.nova_conta 1).historico.transacoes ++ [.saque 50] ∧
    (ClienteCC.realizar_transacao ⟨[ContaCorrente.nova_conta 1]⟩
        (ContaCorrente.nova_conta 1) (.saque 50)).2.numero_saques_realizados
      = (ContaCorrente.nova_conta 1).numero_saques_realizados :=
  ⟨by norm_num, by decide,
    bypass_skips_counter ⟨[ContaCorrente.nova_conta 1]⟩ (ContaCorrente.nova_conta 1)
      50 (by norm_num) (by decide)⟩
